import Mathlib

/-!
Shallow embedding of the ecommerce-catalog-service core: the Attribute,
Category and Product aggregates, the slug validation, the Create/Update
command handlers with their reference-resolution and optimistic-locking
checks, and the event factories.  Go strings are Lean `String`s, Go
`float32` prices are `Rat` (the code only compares, never computes),
Go `int` is `Int`, Go pointers are `Option`, timestamps are abstract `Nat`
instants passed in explicitly (Go calls `time.Now()`), and generated UUIDs
are explicit `genId` parameters.
-/

/-- Go `len(s)` on a string is its UTF-8 byte length, not its rune count.
`goCharBytes` is the number of UTF-8 bytes encoding one rune. -/
def goCharBytes (c : Char) : Nat :=
  if c.toNat ≤ 0x7F then 1
  else if c.toNat ≤ 0x7FF then 2
  else if c.toNat ≤ 0xFFFF then 3
  else 4

/-- Go `len(s)`: the UTF-8 byte length of the string. -/
def goStrLen (s : String) : Nat := (s.data.map goCharBytes).sum

/-- Go `attribute.AttributeType` is a string type. -/
abbrev AttributeType := String

def AttributeTypeSingle : AttributeType := "single"
def AttributeTypeMultiple : AttributeType := "multiple"
def AttributeTypeRange : AttributeType := "range"
def AttributeTypeBoolean : AttributeType := "boolean"
def AttributeTypeText : AttributeType := "text"

/-- Go `category.AttributeRole` is a string type. -/
abbrev AttributeRole := String

def AttributeRoleVariant : AttributeRole := "variant"
def AttributeRoleSpecification : AttributeRole := "specification"

/-- Embedding of `attribute.Option` (an option embedded in an Attribute). -/
structure AttrOption where
  name : String
  slug : String
  colorCode : Option String
  sortOrder : Int
deriving Repr, DecidableEq

/-- Embedding of the `attribute.Attribute` aggregate root. -/
structure Attribute where
  id : String
  version : Int
  name : String
  slug : String
  attrType : AttributeType
  unit : Option String
  enabled : Bool
  options : List AttrOption
  createdAt : Nat
  modifiedAt : Nat
deriving Repr, DecidableEq

/-- Errors produced by `attribute` domain validation; `message` recovers the
exact Go error text (each `fmt.Errorf` site wraps `ErrInvalidAttributeData`). -/
inductive AttributeError where
  | nameRequired
  | nameTooLong
  | slugRequired
  | slugTooLong
  | slugFormat
  | invalidType
  | optionNameRequired
  | optionNameTooLong
  | optionSlugRequired
  | optionSlugTooLong
  | optionSlugFormat
  | duplicateOptionSlug (slug : String)
  | optionSortOrderNegative
deriving Repr, DecidableEq

def AttributeError.message : AttributeError → String
  | .nameRequired => "invalid attribute data: name is required"
  | .nameTooLong => "invalid attribute data: name is too long (max 100 characters)"
  | .slugRequired => "invalid attribute data: slug is required"
  | .slugTooLong => "invalid attribute data: slug is too long (max 50 characters)"
  | .slugFormat => "invalid attribute data: slug must contain only lowercase letters, numbers, and hyphens"
  | .invalidType => "invalid attribute data: invalid attribute type"
  | .optionNameRequired => "invalid attribute data: option name is required"
  | .optionNameTooLong => "invalid attribute data: option name is too long (max 100 characters)"
  | .optionSlugRequired => "invalid attribute data: option slug is required"
  | .optionSlugTooLong => "invalid attribute data: option slug is too long (max 50 characters)"
  | .optionSlugFormat => "invalid attribute data: option slug must contain only lowercase letters, numbers, and hyphens"
  | .duplicateOptionSlug s => "invalid attribute data: duplicate option slug: " ++ s
  | .optionSortOrderNegative => "invalid attribute data: option sortOrder cannot be negative"

/-- One character of the class `[a-z0-9]` from `slugRegex`. -/
def isSlugChar (c : Char) : Bool :=
  (decide ('a' ≤ c) && decide (c ≤ 'z')) || (decide ('0' ≤ c) && decide (c ≤ '9'))

/-- Split a character list at every hyphen into the list of `-`-separated
parts; always returns at least one part. -/
def splitOnHyphen : List Char → List (List Char)
  | [] => [[]]
  | c :: rest =>
    match splitOnHyphen rest with
    | [] => [[]]
    | p :: ps => if c = '-' then [] :: p :: ps else (c :: p) :: ps

/-- Embedding of Go `slugRegex.MatchString` for the anchored pattern
`^[a-z0-9]+(?:-[a-z0-9]+)*$`: the string is a non-empty sequence of
`[a-z0-9]+` groups joined by single hyphens, i.e. splitting on `-` yields
only non-empty all-slug-character parts. -/
def slugRegexMatches (s : String) : Bool :=
  (splitOnHyphen s.data).all (fun part => decide (part.length > 0) && part.all isSlugChar)

/-- Embedding of `attribute.validateAttributeData`. -/
def validateAttributeData (name slug : String) (attrType : AttributeType) :
    Option AttributeError :=
  if name = "" then some .nameRequired
  else if goStrLen name > 100 then some .nameTooLong
  else if slug = "" then some .slugRequired
  else if goStrLen slug > 50 then some .slugTooLong
  else if ¬ slugRegexMatches slug then some .slugFormat
  else if ¬ (attrType = AttributeTypeSingle ∨ attrType = AttributeTypeMultiple ∨
             attrType = AttributeTypeRange ∨ attrType = AttributeTypeBoolean ∨
             attrType = AttributeTypeText) then some .invalidType
  else none

/-- Loop body of `attribute.validateOptions`; `seen` is the `slugs` set built
so far by the Go loop. -/
def validateOptionsLoop (seen : List String) : List AttrOption → Option AttributeError
  | [] => none
  | opt :: rest =>
    if opt.name = "" then some .optionNameRequired
    else if goStrLen opt.name > 100 then some .optionNameTooLong
    else if opt.slug = "" then some .optionSlugRequired
    else if goStrLen opt.slug > 50 then some .optionSlugTooLong
    else if ¬ slugRegexMatches opt.slug then some .optionSlugFormat
    else if seen.contains opt.slug then some (.duplicateOptionSlug opt.slug)
    else if opt.sortOrder < 0 then some .optionSortOrderNegative
    else validateOptionsLoop (opt.slug :: seen) rest

/-- Embedding of `attribute.validateOptions`. -/
def validateOptions (options : List AttrOption) : Option AttributeError :=
  validateOptionsLoop [] options

/-- Embedding of `attribute.NewAttribute`; `genId` stands for the UUID the Go
code generates when `id` is empty, `now` for `time.Now().UTC()`. -/
def NewAttribute (genId : String) (id name slug : String) (attrType : AttributeType)
    (unit : Option String) (enabled : Bool) (options : List AttrOption) (now : Nat) :
    Except AttributeError Attribute :=
  match validateAttributeData name slug attrType with
  | some e => .error e
  | none =>
    match validateOptions options with
    | some e => .error e
    | none =>
      .ok { id := if id = "" then genId else id
            version := 1
            name := name
            slug := slug
            attrType := attrType
            unit := unit
            enabled := enabled
            options := options
            createdAt := now
            modifiedAt := now }

/-- Embedding of `attribute.Reconstruct` (no validation). -/
def AttributeReconstruct (id : String) (version : Int) (name slug : String)
    (attrType : AttributeType) (unit : Option String) (enabled : Bool)
    (options : List AttrOption) (createdAt modifiedAt : Nat) : Attribute :=
  { id := id, version := version, name := name, slug := slug, attrType := attrType
    unit := unit, enabled := enabled, options := options
    createdAt := createdAt, modifiedAt := modifiedAt }

/-- Embedding of `(*Attribute).Update`: the Go method mutates the receiver only
after all checks pass, so the result pairs the post-state with the error; on a
validation error the post-state is the untouched receiver. -/
def Attribute.Update (a : Attribute) (name : String) (unit : Option String)
    (enabled : Bool) (options : List AttrOption) (now : Nat) :
    Attribute × Option AttributeError :=
  if name = "" then (a, some .nameRequired)
  else if goStrLen name > 100 then (a, some .nameTooLong)
  else
    match validateOptions options with
    | some e => (a, some e)
    | none =>
      ({ a with name := name, unit := unit, enabled := enabled,
                options := options, modifiedAt := now }, none)

/-- Embedding of `category.CategoryAttribute` (attribute assigned to a category). -/
structure CategoryAttribute where
  attributeID : String
  slug : String
  role : AttributeRole
  required : Bool
  sortOrder : Int
  filterable : Bool
  searchable : Bool
deriving Repr, DecidableEq

/-- Embedding of the `category.Category` aggregate root. -/
structure Category where
  id : String
  version : Int
  name : String
  enabled : Bool
  attributes : List CategoryAttribute
  createdAt : Nat
  modifiedAt : Nat
deriving Repr, DecidableEq

/-- Errors of `category` domain validation, wrapping `ErrInvalidCategoryData`. -/
inductive CategoryError where
  | nameRequired
  | nameTooLong
deriving Repr, DecidableEq

def CategoryError.message : CategoryError → String
  | .nameRequired => "invalid category data: name is required"
  | .nameTooLong => "invalid category data: name is too long (max 255 characters)"

/-- Embedding of `category.validateCategoryData`. -/
def validateCategoryData (name : String) : Option CategoryError :=
  if name = "" then some .nameRequired
  else if goStrLen name > 255 then some .nameTooLong
  else none

/-- Embedding of `category.NewCategory`; `genId` is the generated UUID. -/
def NewCategory (genId : String) (name : String) (enabled : Bool)
    (attributes : List CategoryAttribute) (now : Nat) : Except CategoryError Category :=
  match validateCategoryData name with
  | some e => .error e
  | none =>
    .ok { id := genId, version := 1, name := name, enabled := enabled
          attributes := attributes, createdAt := now, modifiedAt := now }

/-- Embedding of `category.NewCategoryWithID`. -/
def NewCategoryWithID (id name : String) (enabled : Bool)
    (attributes : List CategoryAttribute) (now : Nat) : Except CategoryError Category :=
  match validateCategoryData name with
  | some e => .error e
  | none =>
    .ok { id := id, version := 1, name := name, enabled := enabled
          attributes := attributes, createdAt := now, modifiedAt := now }

/-- Embedding of `category.Reconstruct` (no validation). -/
def CategoryReconstruct (id : String) (version : Int) (name : String) (enabled : Bool)
    (attributes : List CategoryAttribute) (createdAt modifiedAt : Nat) : Category :=
  { id := id, version := version, name := name, enabled := enabled
    attributes := attributes, createdAt := createdAt, modifiedAt := modifiedAt }

/-- Embedding of `(*Category).Update`; post-state paired with the error, the
receiver untouched on failure exactly as the Go early return leaves it. -/
def Category.Update (c : Category) (name : String) (enabled : Bool)
    (attributes : List CategoryAttribute) (now : Nat) :
    Category × Option CategoryError :=
  match validateCategoryData name with
  | some e => (c, some e)
  | none =>
    ({ c with name := name, enabled := enabled, attributes := attributes,
              modifiedAt := now }, none)

/-- Embedding of `product.AttributeValue` (and of the structurally identical
`product.ProductAttribute` used by the update handler revision). -/
structure AttributeValue where
  attributeID : String
  optionSlugValue : Option String
  optionSlugValues : List String
  numericValue : Option Rat
  textValue : Option String
  booleanValue : Option Bool
deriving Repr, DecidableEq

/-- Embedding of the `product.Product` aggregate root; `price` embeds the Go
`float32` (the code only ever compares prices, so `Rat` is faithful on all
non-NaN values). -/
structure Product where
  id : String
  version : Int
  name : String
  description : Option String
  price : Rat
  quantity : Int
  imageID : Option String
  categoryID : Option String
  enabled : Bool
  attributes : List AttributeValue
  createdAt : Nat
  modifiedAt : Nat
deriving Repr, DecidableEq

/-- Errors of `product` domain validation, wrapping `ErrInvalidProductData`;
one constructor per `fmt.Errorf` site. -/
inductive ProductError where
  | nameRequired
  | nameTooLong
  | priceNegative
  | quantityNegative
  | enablePriceNotPositive
  | enableQuantityNotPositive
  | enableNoImage
  | enableNoCategory
deriving Repr, DecidableEq

def ProductError.message : ProductError → String
  | .nameRequired => "invalid product data: name is required"
  | .nameTooLong => "invalid product data: name is too long (max 255 characters)"
  | .priceNegative => "invalid product data: price must be positive"
  | .quantityNegative => "invalid product data: quantity cannot be negative"
  | .enablePriceNotPositive => "invalid product data: cannot enable product with price <= 0"
  | .enableQuantityNotPositive => "invalid product data: cannot enable product with quantity <= 0"
  | .enableNoImage => "invalid product data: cannot enable product without imageID"
  | .enableNoCategory => "invalid product data: cannot enable product without categoryID"

/-- Embedding of `product.validateProductData`. -/
def validateProductData (name : String) (price : Rat) (quantity : Int) :
    Option ProductError :=
  if name = "" then some .nameRequired
  else if goStrLen name > 255 then some .nameTooLong
  else if price < 0 then some .priceNegative
  else if quantity < 0 then some .quantityNegative
  else none

/-- Embedding of `product.validateEnabledState`. -/
def validateEnabledState (enabled : Bool) (price : Rat) (quantity : Int)
    (imageID categoryID : Option String) : Option ProductError :=
  if ¬ enabled then none
  else if price ≤ 0 then some .enablePriceNotPositive
  else if quantity ≤ 0 then some .enableQuantityNotPositive
  else if imageID = none then some .enableNoImage
  else if categoryID = none then some .enableNoCategory
  else none

/-- Embedding of `product.NewProductWithID`. -/
def NewProductWithID (id name : String) (description : Option String) (price : Rat)
    (quantity : Int) (imageID categoryID : Option String) (enabled : Bool)
    (attributes : List AttributeValue) (now : Nat) : Except ProductError Product :=
  match validateProductData name price quantity with
  | some e => .error e
  | none =>
    match validateEnabledState enabled price quantity imageID categoryID with
    | some e => .error e
    | none =>
      .ok { id := id, version := 1, name := name, description := description
            price := price, quantity := quantity, imageID := imageID
            categoryID := categoryID, enabled := enabled, attributes := attributes
            createdAt := now, modifiedAt := now }

/-- Embedding of `product.NewProduct`; `genId` is the generated UUID. -/
def NewProduct (genId : String) (name : String) (description : Option String)
    (price : Rat) (quantity : Int) (imageID categoryID : Option String)
    (enabled : Bool) (attributes : List AttributeValue) (now : Nat) :
    Except ProductError Product :=
  NewProductWithID genId name description price quantity imageID categoryID
    enabled attributes now

/-- Embedding of `product.Reconstruct` (no validation). -/
def ProductReconstruct (id : String) (version : Int) (name : String)
    (description : Option String) (price : Rat) (quantity : Int)
    (imageID categoryID : Option String) (enabled : Bool)
    (attributes : List AttributeValue) (createdAt modifiedAt : Nat) : Product :=
  { id := id, version := version, name := name, description := description
    price := price, quantity := quantity, imageID := imageID
    categoryID := categoryID, enabled := enabled, attributes := attributes
    createdAt := createdAt, modifiedAt := modifiedAt }

/-- Embedding of `(*Product).Update`; the Go method assigns fields only after
both validations succeed, so the pair is (post-state, error) and on error the
post-state is the untouched receiver. -/
def Product.Update (p : Product) (name : String) (description : Option String)
    (price : Rat) (quantity : Int) (imageID categoryID : Option String)
    (enabled : Bool) (attributes : List AttributeValue) (now : Nat) :
    Product × Option ProductError :=
  match validateProductData name price quantity with
  | some e => (p, some e)
  | none =>
    match validateEnabledState enabled price quantity imageID categoryID with
    | some e => (p, some e)
    | none =>
      ({ p with name := name, description := description, price := price
                quantity := quantity, imageID := imageID, categoryID := categoryID
                enabled := enabled, attributes := attributes, modifiedAt := now },
       none)

/-- Errors surfaced by the command handlers: the persistence sentinels
(`ErrEntityNotFound`, `ErrOptimisticLocking`), `product.ErrCategoryNotFound`,
the `FindByIDsOrFail` missing-attribute error (carrying the missing ID the Go
message names), and wrapped domain validation errors. -/
inductive HandlerError where
  | entityNotFound
  | optimisticLocking
  | categoryNotFound
  | attributeNotFound (missingID : String)
  | domainProduct (e : ProductError)
  | domainCategory (e : CategoryError)
  | domainAttribute (e : AttributeError)
deriving Repr, DecidableEq

/-- Embedding of `attributeRepository.FindByIDs`: the Mongo `$in` query returns
the stored documents whose `_id` is among `ids` (the store is the list of
persisted attributes, `_id` unique). -/
def findAttrByIDs (store : List Attribute) (ids : List String) : List Attribute :=
  store.filter (fun a => ids.contains a.id)

/-- Embedding of `attributeRepository.FindByIDsOrFail`: all-or-nothing lookup;
on a length mismatch the error names the first requested ID not found
(`lo.Find` yields the zero-value string when every ID was found). -/
def findAttrByIDsOrFail (store : List Attribute) (ids : List String) :
    Except HandlerError (List Attribute) :=
  let attrs := findAttrByIDs store ids
  if attrs.length ≠ ids.length then
    let foundIDs := attrs.map Attribute.id
    .error (.attributeNotFound ((ids.find? (fun i => ¬ foundIDs.contains i)).getD ""))
  else
    .ok attrs

/-- Modelled from the spec: the commons `GenericRepository.Update` conditioned
write (the `ecommerce-commons` persistence layer is not in this repository).
Spec §6: `Update(aggregate) (*Aggregate, ConflictError)` conditioned on
`Version`; §3: Version `is incremented only by the persistence layer on a
successful conditioned write`. -/
def repoUpdateProduct (store : Option Product) (p : Product) :
    Except HandlerError (Product × Option Product) :=
  match store with
  | none => .error .optimisticLocking
  | some q =>
    if q.version = p.version then
      let p' := { p with version := p.version + 1 }
      .ok (p', some p')
    else .error .optimisticLocking

/-- Modelled from the spec: the conditioned write for the attribute store,
same commons `GenericRepository.Update` contract as `repoUpdateProduct`. -/
def repoUpdateAttribute (store : Option Attribute) (a : Attribute) :
    Except HandlerError (Attribute × Option Attribute) :=
  match store with
  | none => .error .optimisticLocking
  | some q =>
    if q.version = a.version then
      let a' := { a with version := a.version + 1 }
      .ok (a', some a')
    else .error .optimisticLocking

/-- Result of one handler run over a single-aggregate store: the returned
value or error, the store after the run, and whether `WithTransaction` was
ever entered. -/
structure UpdateOutcome (α : Type) where
  result : Except HandlerError α
  store : Option α
  txOpened : Bool
deriving Repr

/-- Embedding of `updateProductHandler.Handle` over a store holding the
aggregate `cmd.ID` names (`none` = not persisted): `FindByID`, the fail-fast
version comparison, the domain `Update`, then the transaction whose body does
the conditioned repository write and enqueues the outbox message (outbox
enqueue of the collaborator succeeds; its failure paths are out of scope). -/
def updateProductHandle (store : Option Product) (cmdVersion : Int) (name : String)
    (description : Option String) (price : Rat) (quantity : Int)
    (imageID categoryID : Option String) (enabled : Bool)
    (attributes : List AttributeValue) (now : Nat) : UpdateOutcome Product :=
  match store with
  | none => { result := .error .entityNotFound, store := store, txOpened := false }
  | some p =>
    if p.version ≠ cmdVersion then
      { result := .error .optimisticLocking, store := store, txOpened := false }
    else
      match Product.Update p name description price quantity imageID categoryID
          enabled attributes now with
      | (_, some e) =>
        { result := .error (.domainProduct e), store := store, txOpened := false }
      | (p', none) =>
        match repoUpdateProduct store p' with
        | .error e => { result := .error e, store := store, txOpened := true }
        | .ok (updated, store') =>
          { result := .ok updated, store := store', txOpened := true }

/-- Embedding of `updateAttributeHandler.Handle`, same shape as the product
update handler: `FindByID`, fail-fast version check, domain `Update`,
transactional conditioned write plus outbox enqueue. -/
def updateAttributeHandle (store : Option Attribute) (cmdVersion : Int)
    (name : String) (unit : Option String) (enabled : Bool)
    (options : List AttrOption) (now : Nat) : UpdateOutcome Attribute :=
  match store with
  | none => { result := .error .entityNotFound, store := store, txOpened := false }
  | some a =>
    if a.version ≠ cmdVersion then
      { result := .error .optimisticLocking, store := store, txOpened := false }
    else
      match Attribute.Update a name unit enabled options now with
      | (_, some e) =>
        { result := .error (.domainAttribute e), store := store, txOpened := false }
      | (a', none) =>
        match repoUpdateAttribute store a' with
        | .error e => { result := .error e, store := store, txOpened := true }
        | .ok (updated, store') =>
          { result := .ok updated, store := store', txOpened := true }

/-- Result of a create handler run: the returned value or error, whether
`repo.Insert` ran, and whether `WithTransaction` was ever entered. -/
structure CreateOutcome (α : Type) where
  result : Except HandlerError α
  inserted : Bool
  txOpened : Bool
deriving Repr

/-- Embedding of `createProductHandler.validateCategory`: existence probe of
`cmd.CategoryID` against the category store (the persisted category IDs). -/
def createProductValidateCategory (catStore : List String)
    (categoryID : Option String) : Option HandlerError :=
  match categoryID with
  | none => none
  | some cid => if catStore.contains cid then none else some .categoryNotFound

/-- Embedding of `createProductHandler.Handle`: category existence probe, then
all-or-nothing attribute resolution, then the validating factory, then the
transaction (`Insert` plus outbox enqueue, both modelled as succeeding — the
claims under test concern the failure paths before the transaction). -/
def createProductHandle (catStore : List String) (attrStore : List Attribute)
    (cmdID : Option String) (genId name : String) (description : Option String)
    (price : Rat) (quantity : Int) (imageID categoryID : Option String)
    (enabled : Bool) (attributes : List AttributeValue) (now : Nat) :
    CreateOutcome Product :=
  match createProductValidateCategory catStore categoryID with
  | some e => { result := .error e, inserted := false, txOpened := false }
  | none =>
    match findAttrByIDsOrFail attrStore (attributes.map AttributeValue.attributeID) with
    | .error e => { result := .error e, inserted := false, txOpened := false }
    | .ok _ =>
      match (match cmdID with
             | some i => NewProductWithID i name description price quantity imageID
                 categoryID enabled attributes now
             | none => NewProduct genId name description price quantity imageID
                 categoryID enabled attributes now) with
      | .error e =>
        { result := .error (.domainProduct e), inserted := false, txOpened := false }
      | .ok p => { result := .ok p, inserted := true, txOpened := true }

/-- Embedding of `category.CategoryAttributeInput` (create/update command input). -/
structure CategoryAttributeInput where
  attributeID : String
  role : String
  required : Bool
  sortOrder : Int
  filterable : Bool
  searchable : Bool
deriving Repr, DecidableEq

/-- Embedding of the `categoryAttrs` mapping in `createCategoryHandler.Handle`:
the Go struct literal sets every field except `Slug`, which therefore stays
the zero value `""`. -/
def createCategoryAttrs (inputs : List CategoryAttributeInput) :
    List CategoryAttribute :=
  inputs.map (fun attr =>
    { attributeID := attr.attributeID
      slug := ""
      role := attr.role
      required := attr.required
      sortOrder := attr.sortOrder
      filterable := attr.filterable
      searchable := attr.searchable })

/-- Embedding of `createCategoryHandler.Handle`: all-or-nothing attribute
resolution, the input-to-domain attribute mapping, the validating factory,
then the transaction (`Insert` plus outbox enqueue modelled as succeeding). -/
def createCategoryHandle (attrStore : List Attribute) (cmdID : Option String)
    (genId name : String) (enabled : Bool) (inputs : List CategoryAttributeInput)
    (now : Nat) : CreateOutcome Category :=
  match findAttrByIDsOrFail attrStore (inputs.map CategoryAttributeInput.attributeID) with
  | .error e => { result := .error e, inserted := false, txOpened := false }
  | .ok _ =>
    let categoryAttrs := createCategoryAttrs inputs
    match (match cmdID with
           | some i => NewCategoryWithID i name enabled categoryAttrs now
           | none => NewCategory genId name enabled categoryAttrs now) with
    | .error e =>
      { result := .error (.domainCategory e), inserted := false, txOpened := false }
    | .ok c => { result := .ok c, inserted := true, txOpened := true }

/-- Embedding of `updateCategoryHandler.buildCategoryAttributes`: resolves all
referenced attributes, keys them by ID (`lo.KeyBy`, later entries win), and
snapshots each found attribute's slug into the `Slug` field. -/
def buildCategoryAttributes (attrStore : List Attribute)
    (inputs : List CategoryAttributeInput) :
    Except HandlerError (List CategoryAttribute) :=
  match findAttrByIDsOrFail attrStore (inputs.map CategoryAttributeInput.attributeID) with
  | .error e => .error e
  | .ok attrs =>
    .ok (inputs.map (fun attr =>
      { attributeID := attr.attributeID
        slug := ((attrs.reverse.find? (fun a => a.id = attr.attributeID)).map
                  Attribute.slug).getD ""
        role := attr.role
        required := attr.required
        sortOrder := attr.sortOrder
        filterable := attr.filterable
        searchable := attr.searchable }))

/-- Embedding of the generated `events.CategoryAttribute` payload entry; the
fields are exactly those the factories populate, others zero-valued. -/
structure EventCategoryAttribute where
  attributeID : String
  attributeSlug : String
  role : String
  required : Bool
  sortOrder : Int
  filterable : Bool
  searchable : Bool
deriving Repr, DecidableEq

/-- Embedding of `toCategoryEventAttributes` (the primary
`category_event.go` revision): the struct literal omits `AttributeSlug`,
leaving the zero value. -/
def toCategoryEventAttributes (attrs : List CategoryAttribute) :
    List EventCategoryAttribute :=
  attrs.map (fun attr =>
    { attributeID := attr.attributeID
      attributeSlug := ""
      role := attr.role
      required := attr.required
      sortOrder := attr.sortOrder
      filterable := attr.filterable
      searchable := attr.searchable })

/-- Embedding of the `toCategoryEventAttributes` variant (second revision in
`category_event.go`), which additionally copies the stored `Slug`. -/
def toCategoryEventAttributesV2 (categoryAttrs : List CategoryAttribute) :
    List EventCategoryAttribute :=
  categoryAttrs.map (fun catAttr =>
    { attributeID := catAttr.attributeID
      attributeSlug := catAttr.slug
      role := catAttr.role
      required := catAttr.required
      sortOrder := catAttr.sortOrder
      filterable := catAttr.filterable
      searchable := catAttr.searchable })

/-- Embedding of `events.CategoryCreatedPayload` (the event metadata — id,
type, source, timestamp, trace — carries no aggregate data and is omitted). -/
structure CategoryCreatedPayload where
  categoryID : String
  name : String
  enabled : Bool
  attributes : List EventCategoryAttribute
  version : Int
  createdAt : Nat
  modifiedAt : Nat
deriving Repr, DecidableEq

/-- Embedding of `categoryEventFactory.newCategoryCreatedEvent`'s payload,
using the slug-copying `toCategoryEventAttributes` variant (the one most
favourable to the denormalization claim). -/
def newCategoryCreatedPayload (c : Category) : CategoryCreatedPayload :=
  { categoryID := c.id
    name := c.name
    enabled := c.enabled
    attributes := toCategoryEventAttributesV2 c.attributes
    version := c.version
    createdAt := c.createdAt
    modifiedAt := c.modifiedAt }

/-- Every string field occurring anywhere in a category event payload; a
datum is denormalized into the event only if it appears here. -/
def categoryPayloadStrings (p : CategoryCreatedPayload) : List String :=
  p.categoryID :: p.name ::
    (p.attributes.flatMap (fun a => [a.attributeID, a.attributeSlug, a.role]))

/-- Embedding of the generated `events.ProductAttribute` payload entry; the
fields are exactly those `toProductEventAttributes` populates, with Go zero
values where it does not. -/
structure EventProductAttribute where
  attributeID : String
  optionSlugValue : Option String
  optionSlugValues : Option (List String)
  numericValue : Option Rat
  textValue : Option String
  booleanValue : Option Bool
  attributeSlug : String
  attributeName : String
  attributeType : String
  attributeUnit : Option String
  optionName : Option String
  optionColorCode : Option String
  optionNames : Option (List String)
  role : String
  sortOrder : Int
deriving Repr, DecidableEq

/-- Embedding of `lo.KeyBy` followed by map lookup: later list entries
overwrite earlier ones, so the lookup finds the last matching element. -/
def keyByAttrID (attrs : List Attribute) (id : String) : Option Attribute :=
  attrs.reverse.find? (fun a => a.id = id)

/-- Lookup in the `lo.KeyBy` map of a category's attributes by `AttributeID`. -/
def keyByCatAttrID (cat : Option Category) (id : String) : Option CategoryAttribute :=
  match cat with
  | none => none
  | some c => c.attributes.reverse.find? (fun ca => ca.attributeID = id)

/-- Lookup in the `lo.KeyBy` map of an attribute's options by `Slug`. -/
def keyByOptionSlug (options : List AttrOption) (slug : String) : Option AttrOption :=
  options.reverse.find? (fun o => o.slug = slug)

/-- Per-element body of `toProductEventAttributes`: build the base entry from
the product's attribute value, enrich it from the resolved `Attribute`
(slug, name, type, unit, selected option details) and from the owning
category's `CategoryAttribute` (role, sort order). -/
def toProductEventAttr (attrs : List Attribute) (cat : Option Category)
    (pAttr : AttributeValue) : EventProductAttribute :=
  let base : EventProductAttribute :=
    { attributeID := pAttr.attributeID
      optionSlugValue := pAttr.optionSlugValue
      optionSlugValues := some pAttr.optionSlugValues
      numericValue := pAttr.numericValue
      textValue := pAttr.textValue
      booleanValue := pAttr.booleanValue
      attributeSlug := ""
      attributeName := ""
      attributeType := ""
      attributeUnit := none
      optionName := none
      optionColorCode := none
      optionNames := none
      role := ""
      sortOrder := 0 }
  let enriched :=
    match keyByAttrID attrs pAttr.attributeID with
    | none => base
    | some attr =>
      let e1 := { base with attributeSlug := attr.slug, attributeName := attr.name
                            attributeType := attr.attrType, attributeUnit := attr.unit }
      let e2 :=
        match pAttr.optionSlugValue with
        | none => e1
        | some sv =>
          match attr.options.find? (fun o => o.slug = sv) with
          | some opt => { e1 with optionName := some opt.name
                                  optionColorCode := opt.colorCode }
          | none => e1
      if pAttr.optionSlugValues.length > 0 then
        let names := pAttr.optionSlugValues.filterMap
          (fun slug => (keyByOptionSlug attr.options slug).map AttrOption.name)
        if names.length > 0 then { e2 with optionNames := some names } else e2
      else e2
  match keyByCatAttrID cat pAttr.attributeID with
  | some catAttr => { enriched with role := catAttr.role, sortOrder := catAttr.sortOrder }
  | none => enriched

/-- Embedding of `toProductEventAttributes`: `nil` for an empty value list,
otherwise the enriched entry per product attribute value. -/
def toProductEventAttributes (productAttrs : List AttributeValue)
    (attrs : List Attribute) (cat : Option Category) :
    Option (List EventProductAttribute) :=
  if productAttrs.length = 0 then none
  else some (productAttrs.map (toProductEventAttr attrs cat))

/-- Whether an `Except` value is a success. -/
def exceptIsOk {ε α : Type} : Except ε α → Bool
  | .ok _ => true
  | .error _ => false

/-- The error of an `Except` value, if any. -/
def exceptErrorOf {ε α : Type} : Except ε α → Option ε
  | .ok _ => none
  | .error e => some e

/-- Formalisation of the claim's wording for product validation order: base
data first (name required, name length, price ≥ 0, quantity ≥ 0); then, only
if enabled, the four enablement preconditions in the order price, quantity,
imageID, categoryID.  Each pair is (condition fails, error reported). -/
def claimedProductChecks (name : String) (price : Rat) (quantity : Int)
    (enabled : Bool) (imageID categoryID : Option String) :
    List (Bool × ProductError) :=
  [(decide (name = ""), .nameRequired),
   (decide (goStrLen name > 255), .nameTooLong),
   (decide (price < 0), .priceNegative),
   (decide (quantity < 0), .quantityNegative)]
  ++ (if enabled then
        [(decide (price ≤ 0), .enablePriceNotPositive),
         (decide (quantity ≤ 0), .enableQuantityNotPositive),
         (decide (imageID = none), .enableNoImage),
         (decide (categoryID = none), .enableNoCategory)]
      else [])

/-- The claim's predicted outcome: the error of the first failing condition
in the claimed order, if any condition fails. -/
def claimedFirstFailure (name : String) (price : Rat) (quantity : Int)
    (enabled : Bool) (imageID categoryID : Option String) : Option ProductError :=
  ((claimedProductChecks name price quantity enabled imageID categoryID).find?
    (fun c => c.1)).map (fun c => c.2)

/-- Concrete enabled product used to instantiate the C1 theorem. -/
def prodC1 : Product :=
  { id := "p1", version := 1, name := "Phone", description := none, price := 5
    quantity := 3, imageID := some "img", categoryID := some "cat"
    enabled := true, attributes := [], createdAt := 0, modifiedAt := 0 }

/-- Concrete stored product at Version 1 used to instantiate the C2 theorem. -/
def prodC2 : Product :=
  { id := "p2", version := 1, name := "Old", description := none, price := 2
    quantity := 3, imageID := none, categoryID := none
    enabled := false, attributes := [], createdAt := 0, modifiedAt := 0 }

/-- The state `prodC2` reaches after the successful first update of the C2
scenario (fields from the update command, version still 1 before the
conditioned write increments it). -/
def prodC2' : Product :=
  { id := "p2", version := 1, name := "New", description := none, price := 4
    quantity := 6, imageID := none, categoryID := none
    enabled := false, attributes := [], createdAt := 0, modifiedAt := 7 }

/-- Concrete stored attribute `attr-1` with slug `color` and name `Color`. -/
def attrColor : Attribute :=
  { id := "attr-1", version := 1, name := "Color", slug := "color"
    attrType := "single", unit := none, enabled := true, options := []
    createdAt := 0, modifiedAt := 0 }

/-- Concrete attribute store holding only `attrColor`. -/
def attrStoreColor : List Attribute := [attrColor]

/-- Concrete product attribute value referencing `attr-1`. -/
def paColor : AttributeValue :=
  { attributeID := "attr-1", optionSlugValue := none, optionSlugValues := []
    numericValue := none, textValue := none, booleanValue := none }

/-- Concrete option `Red` of the colour attribute. -/
def optRed : AttrOption :=
  { name := "Red", slug := "red", colorCode := some "#FF0000", sortOrder := 1 }

/-- Concrete option `Blue` of the colour attribute. -/
def optBlue : AttrOption :=
  { name := "Blue", slug := "blue", colorCode := some "#0000FF", sortOrder := 2 }

/-- The colour attribute `attr-1` carrying the `Red` and `Blue` options. -/
def attrColorOpts : Attribute :=
  { id := "attr-1", version := 1, name := "Color", slug := "color"
    attrType := "single", unit := none, enabled := true
    options := [optRed, optBlue], createdAt := 0, modifiedAt := 0 }

/-- Concrete product attribute value selecting the single option `red`. -/
def paSingleRed : AttributeValue :=
  { attributeID := "attr-1", optionSlugValue := some "red", optionSlugValues := []
    numericValue := none, textValue := none, booleanValue := none }

/-- Concrete product attribute value selecting the options `red` and `blue`. -/
def paMultiRedBlue : AttributeValue :=
  { attributeID := "attr-1", optionSlugValue := none
    optionSlugValues := ["red", "blue"], numericValue := none, textValue := none
    booleanValue := none }

/-- Concrete category-attribute input referencing `attr-1` as a variant. -/
def inputsColor : List CategoryAttributeInput :=
  [{ attributeID := "attr-1", role := "variant", required := true
     sortOrder := 1, filterable := true, searchable := true }]

/-- The category the create-category handler actually produces in the C5
scenario: the `Slug` field of its attribute is the zero value `""`. -/
def catC5 : Category :=
  { id := "c1", version := 1, name := "Electronics", enabled := true
    attributes := [{ attributeID := "attr-1", slug := "", role := "variant"
                     required := true, sortOrder := 1, filterable := true
                     searchable := true }]
    createdAt := 0, modifiedAt := 0 }

/-- Concrete stored category for the C6 counterexample, referencing `attr-1`
with the stored slug snapshot `color`. -/
def catC6 : Category :=
  { id := "cat-1", version := 1, name := "Electronics", enabled := true
    attributes := [{ attributeID := "attr-1", slug := "color", role := "variant"
                     required := true, sortOrder := 1, filterable := true
                     searchable := true }]
    createdAt := 0, modifiedAt := 0 }

/-- A 60-character name of 2-byte runes: 120 UTF-8 bytes, over the 100-byte
attribute limit although only 60 characters long. -/
def multiByteName100 : String := String.mk (List.replicate 60 'é')

/-- A 130-character name of 2-byte runes: 260 UTF-8 bytes, over the 255-byte
category/product limit although only 130 characters long. -/
def multiByteName255 : String := String.mk (List.replicate 130 'é')

/-! Helper lemmas shared by the claim theorems. -/

theorem validateEnabledState_none_of_true {price : Rat} {quantity : Int}
    {imageID categoryID : Option String}
    (h : validateEnabledState true price quantity imageID categoryID = none) :
    0 < price ∧ 0 < quantity ∧ imageID.isSome ∧ categoryID.isSome := by
  unfold validateEnabledState at h
  rw [if_neg (by simp)] at h
  split_ifs at h with h1 h2 h3 h4
  all_goals try simp at h
  exact ⟨lt_of_not_le h1, lt_of_not_le h2,
    Option.ne_none_iff_isSome.mp h3, Option.ne_none_iff_isSome.mp h4⟩

theorem NewProductWithID_ok {id name : String} {description : Option String}
    {price : Rat} {quantity : Int} {imageID categoryID : Option String}
    {enabled : Bool} {attributes : List AttributeValue} {now : Nat} {p : Product}
    (h : NewProductWithID id name description price quantity imageID categoryID
      enabled attributes now = .ok p) :
    validateProductData name price quantity = none ∧
    validateEnabledState enabled price quantity imageID categoryID = none ∧
    p.enabled = enabled ∧ p.price = price ∧ p.quantity = quantity ∧
    p.imageID = imageID ∧ p.categoryID = categoryID := by
  unfold NewProductWithID at h
  cases h1 : validateProductData name price quantity with
  | some e => rw [h1] at h; exact absurd h (by simp)
  | none =>
    rw [h1] at h
    cases h2 : validateEnabledState enabled price quantity imageID categoryID with
    | some e => rw [h2] at h; exact absurd h (by simp)
    | none =>
      rw [h2] at h
      simp only [Except.ok.injEq] at h
      subst h
      exact ⟨rfl, rfl, rfl, rfl, rfl, rfl, rfl⟩

theorem Product.Update_ok {p : Product} {name : String} {description : Option String}
    {price : Rat} {quantity : Int} {imageID categoryID : Option String}
    {enabled : Bool} {attributes : List AttributeValue} {now : Nat} {q : Product}
    (h : Product.Update p name description price quantity imageID categoryID
      enabled attributes now = (q, none)) :
    validateProductData name price quantity = none ∧
    validateEnabledState enabled price quantity imageID categoryID = none ∧
    q = { p with name := name, description := description, price := price
                 quantity := quantity, imageID := imageID, categoryID := categoryID
                 enabled := enabled, attributes := attributes, modifiedAt := now } := by
  unfold Product.Update at h
  cases h1 : validateProductData name price quantity with
  | some e => rw [h1] at h; exact absurd h (by simp)
  | none =>
    rw [h1] at h
    cases h2 : validateEnabledState enabled price quantity imageID categoryID with
    | some e => rw [h2] at h; exact absurd h (by simp)
    | none =>
      rw [h2] at h
      simp only [Prod.mk.injEq] at h
      exact ⟨rfl, rfl, h.1.symm⟩

/-- C1: every Product produced without error by NewProduct, NewProductWithID,
or Product.Update satisfies, when Enabled is true: Price > 0, Quantity > 0,
ImageID non-nil and CategoryID non-nil; and when Enabled is false none of the
four conditions is required — a disabled product passing only the base data
validation is always produced without error. -/
theorem C1_enabled_product_invariant :
    (∀ (id name : String) (description : Option String) (price : Rat)
       (quantity : Int) (imageID categoryID : Option String) (enabled : Bool)
       (attributes : List AttributeValue) (now : Nat) (p : Product),
       NewProductWithID id name description price quantity imageID categoryID
         enabled attributes now = .ok p →
       p.enabled = true →
       0 < p.price ∧ 0 < p.quantity ∧ p.imageID.isSome ∧ p.categoryID.isSome) ∧
    (∀ (genId name : String) (description : Option String) (price : Rat)
       (quantity : Int) (imageID categoryID : Option String) (enabled : Bool)
       (attributes : List AttributeValue) (now : Nat) (p : Product),
       NewProduct genId name description price quantity imageID categoryID
         enabled attributes now = .ok p →
       p.enabled = true →
       0 < p.price ∧ 0 < p.quantity ∧ p.imageID.isSome ∧ p.categoryID.isSome) ∧
    (∀ (q : Product) (name : String) (description : Option String) (price : Rat)
       (quantity : Int) (imageID categoryID : Option String) (enabled : Bool)
       (attributes : List AttributeValue) (now : Nat) (p : Product),
       Product.Update q name description price quantity imageID categoryID
         enabled attributes now = (p, none) →
       p.enabled = true →
       0 < p.price ∧ 0 < p.quantity ∧ p.imageID.isSome ∧ p.categoryID.isSome) ∧
    (∀ (id name : String) (description : Option String) (price : Rat)
       (quantity : Int) (imageID categoryID : Option String)
       (attributes : List AttributeValue) (now : Nat),
       validateProductData name price quantity = none →
       exceptIsOk (NewProductWithID id name description price quantity imageID
         categoryID false attributes now) = true) := by
  refine ⟨?_, ?_, ?_, ?_⟩
  · intro id name description price quantity imageID categoryID enabled attributes
      now p h hen
    obtain ⟨-, h2, he, hp, hq, hi, hc⟩ := NewProductWithID_ok h
    rw [hen] at he
    obtain ⟨g1, g2, g3, g4⟩ := validateEnabledState_none_of_true (he ▸ h2)
    exact ⟨hp ▸ g1, hq ▸ g2, hi ▸ g3, hc ▸ g4⟩
  · intro genId name description price quantity imageID categoryID enabled
      attributes now p h hen
    obtain ⟨-, h2, he, hp, hq, hi, hc⟩ := NewProductWithID_ok h
    rw [hen] at he
    obtain ⟨g1, g2, g3, g4⟩ := validateEnabledState_none_of_true (he ▸ h2)
    exact ⟨hp ▸ g1, hq ▸ g2, hi ▸ g3, hc ▸ g4⟩
  · intro q name description price quantity imageID categoryID enabled attributes
      now p h hen
    obtain ⟨-, h2, hq3⟩ := Product.Update_ok h
    subst hq3
    simp only at hen
    rw [hen] at h2
    obtain ⟨g1, g2, g3, g4⟩ := validateEnabledState_none_of_true h2
    exact ⟨g1, g2, g3, g4⟩
  · intro id name description price quantity imageID categoryID attributes now h
    unfold NewProductWithID
    rw [h]
    have : validateEnabledState false price quantity imageID categoryID = none := by
      unfold validateEnabledState
      simp
    rw [this]
    rfl

/-- Witness for C1: a concrete enabled product built by NewProductWithID. -/
theorem C1_witness :
    0 < prodC1.price ∧ 0 < prodC1.quantity ∧
    prodC1.imageID.isSome ∧ prodC1.categoryID.isSome :=
  C1_enabled_product_invariant.1 "p1" "Phone" none 5 3 (some "img") (some "cat")
    true [] 0 prodC1 (by rfl) (by decide)

/-- C4: when validation fails, Update leaves every field of the aggregate
unchanged — including ModifiedAt — for Product, Attribute and Category alike;
in particular Product.Update with an empty name returns the validation error
whose text is `name is required` and changes nothing. -/
theorem C4_failed_update_leaves_aggregate_unchanged :
    (∀ (p : Product) (name : String) (description : Option String) (price : Rat)
       (quantity : Int) (imageID categoryID : Option String) (enabled : Bool)
       (attributes : List AttributeValue) (now : Nat),
       (Product.Update p name description price quantity imageID categoryID
         enabled attributes now).2 ≠ none →
       (Product.Update p name description price quantity imageID categoryID
         enabled attributes now).1 = p) ∧
    (∀ (a : Attribute) (name : String) (unit : Option String) (enabled : Bool)
       (options : List AttrOption) (now : Nat),
       (Attribute.Update a name unit enabled options now).2 ≠ none →
       (Attribute.Update a name unit enabled options now).1 = a) ∧
    (∀ (c : Category) (name : String) (enabled : Bool)
       (attributes : List CategoryAttribute) (now : Nat),
       (Category.Update c name enabled attributes now).2 ≠ none →
       (Category.Update c name enabled attributes now).1 = c) ∧
    (∀ (p : Product) (description : Option String) (price : Rat) (quantity : Int)
       (imageID categoryID : Option String) (enabled : Bool)
       (attributes : List AttributeValue) (now : Nat),
       Product.Update p "" description price quantity imageID categoryID enabled
         attributes now = (p, some ProductError.nameRequired)) ∧
    ProductError.message .nameRequired = "invalid product data: name is required" := by
  refine ⟨?_, ?_, ?_, ?_, rfl⟩
  · intro p name description price quantity imageID categoryID enabled attributes
      now h
    unfold Product.Update at h ⊢
    cases h1 : validateProductData name price quantity with
    | some e => simp [h1]
    | none =>
      cases h2 : validateEnabledState enabled price quantity imageID categoryID with
      | some e => simp [h1, h2]
      | none => rw [h1, h2] at h; simp at h
  · intro a name unit enabled options now h
    unfold Attribute.Update at h ⊢
    split_ifs with h1 h2
    · rfl
    · rfl
    · cases h3 : validateOptions options with
      | some e => simp [h3]
      | none => rw [if_neg h1, if_neg h2, h3] at h; simp at h
  · intro c name enabled attributes now h
    unfold Category.Update at h ⊢
    cases h1 : validateCategoryData name with
    | some e => simp [h1]
    | none => rw [h1] at h; simp at h
  · intro p description price quantity imageID categoryID enabled attributes now
    rfl

/-- Witness for C4: a concrete failing update leaves the product unchanged. -/
theorem C4_witness :
    (Product.Update prodC1 "" none 10 5 none none false [] 9).1 = prodC1 :=
  C4_failed_update_leaves_aggregate_unchanged.1 prodC1 "" none 10 5 none none
    false [] 9 (by decide)

/-- C7: Attribute.Update never changes Slug, Type, ID, Version or CreatedAt,
whatever its arguments and whether it succeeds or fails. -/
theorem C7_attribute_update_never_changes_immutable_fields :
    ∀ (a : Attribute) (name : String) (unit : Option String) (enabled : Bool)
      (options : List AttrOption) (now : Nat),
      ((Attribute.Update a name unit enabled options now).1).slug = a.slug ∧
      ((Attribute.Update a name unit enabled options now).1).attrType = a.attrType ∧
      ((Attribute.Update a name unit enabled options now).1).id = a.id ∧
      ((Attribute.Update a name unit enabled options now).1).version = a.version ∧
      ((Attribute.Update a name unit enabled options now).1).createdAt = a.createdAt := by
  intro a name unit enabled options now
  unfold Attribute.Update
  split_ifs with h1 h2
  · exact ⟨rfl, rfl, rfl, rfl, rfl⟩
  · exact ⟨rfl, rfl, rfl, rfl, rfl⟩
  · cases validateOptions options <;> exact ⟨rfl, rfl, rfl, rfl, rfl⟩

theorem productFirstError_eq (name : String) (price : Rat) (quantity : Int)
    (enabled : Bool) (imageID categoryID : Option String) :
    (match validateProductData name price quantity with
     | some e => some e
     | none => validateEnabledState enabled price quantity imageID categoryID) =
    claimedFirstFailure name price quantity enabled imageID categoryID := by
  unfold claimedFirstFailure claimedProductChecks validateProductData
    validateEnabledState
  cases enabled <;> split_ifs <;> (try simp [List.find?, *]) <;> simp_all

/-- C8: product validation reports exactly the first failing condition in the
claimed order — name required, name length, price ≥ 0, quantity ≥ 0, then
(only if enabled) price > 0, quantity > 0, imageID, categoryID — for
NewProductWithID, NewProduct and Product.Update alike. -/
theorem C8_product_validation_order :
    (∀ (id name : String) (description : Option String) (price : Rat)
       (quantity : Int) (imageID categoryID : Option String) (enabled : Bool)
       (attributes : List AttributeValue) (now : Nat),
       exceptErrorOf (NewProductWithID id name description price quantity imageID
         categoryID enabled attributes now) =
       claimedFirstFailure name price quantity enabled imageID categoryID) ∧
    (∀ (genId name : String) (description : Option String) (price : Rat)
       (quantity : Int) (imageID categoryID : Option String) (enabled : Bool)
       (attributes : List AttributeValue) (now : Nat),
       exceptErrorOf (NewProduct genId name description price quantity imageID
         categoryID enabled attributes now) =
       claimedFirstFailure name price quantity enabled imageID categoryID) ∧
    (∀ (p : Product) (name : String) (description : Option String) (price : Rat)
       (quantity : Int) (imageID categoryID : Option String) (enabled : Bool)
       (attributes : List AttributeValue) (now : Nat),
       (Product.Update p name description price quantity imageID categoryID
         enabled attributes now).2 =
       claimedFirstFailure name price quantity enabled imageID categoryID) := by
  refine ⟨?_, ?_, ?_⟩
  · intro id name description price quantity imageID categoryID enabled attributes now
    rw [← productFirstError_eq name price quantity enabled imageID categoryID]
    unfold NewProductWithID exceptErrorOf
    cases validateProductData name price quantity with
    | some e => rfl
    | none =>
      cases validateEnabledState enabled price quantity imageID categoryID <;> rfl
  · intro genId name description price quantity imageID categoryID enabled attributes now
    rw [← productFirstError_eq name price quantity enabled imageID categoryID]
    unfold NewProduct NewProductWithID exceptErrorOf
    cases validateProductData name price quantity with
    | some e => rfl
    | none =>
      cases validateEnabledState enabled price quantity imageID categoryID <;> rfl
  · intro p name description price quantity imageID categoryID enabled attributes now
    rw [← productFirstError_eq name price quantity enabled imageID categoryID]
    unfold Product.Update
    cases validateProductData name price quantity with
    | some e => rfl
    | none =>
      cases validateEnabledState enabled price quantity imageID categoryID <;> rfl

/-- C9: NewAttribute accepts a slug exactly when it is non-empty, at most 50
characters and matches `^[a-z0-9]+(-[a-z0-9]+)*$` (given the other inputs are
valid); the five sample slugs are each rejected with the validation error
whose text mentions `slug must contain only lowercase`. -/
theorem C9_attribute_slug_validation :
    (∀ (genId id name slug : String) (attrType : AttributeType)
       (unit : Option String) (enabled : Bool) (options : List AttrOption)
       (now : Nat),
       name ≠ "" → goStrLen name ≤ 100 →
       (attrType = AttributeTypeSingle ∨ attrType = AttributeTypeMultiple ∨
        attrType = AttributeTypeRange ∨ attrType = AttributeTypeBoolean ∨
        attrType = AttributeTypeText) →
       validateOptions options = none →
       (exceptIsOk (NewAttribute genId id name slug attrType unit enabled
          options now) = true ↔
        (slug ≠ "" ∧ goStrLen slug ≤ 50 ∧ slugRegexMatches slug = true))) ∧
    NewAttribute "g" "" "Test" "Invalid-Slug" AttributeTypeSingle none false [] 0
      = .error .slugFormat ∧
    NewAttribute "g" "" "Test" "invalid slug" AttributeTypeSingle none false [] 0
      = .error .slugFormat ∧
    NewAttribute "g" "" "Test" "invalid_slug" AttributeTypeSingle none false [] 0
      = .error .slugFormat ∧
    NewAttribute "g" "" "Test" "-invalid" AttributeTypeSingle none false [] 0
      = .error .slugFormat ∧
    NewAttribute "g" "" "Test" "invalid-" AttributeTypeSingle none false [] 0
      = .error .slugFormat ∧
    AttributeError.message .slugFormat =
      "invalid attribute data: " ++ "slug must contain only lowercase" ++
        " letters, numbers, and hyphens" := by
  refine ⟨?_, by rfl, by rfl, by rfl, by rfl, by rfl, by rfl⟩
  intro genId id name slug attrType unit enabled options now hname hlen htype hopts
  unfold NewAttribute validateAttributeData
  rw [if_neg hname, if_neg (not_lt.mpr hlen)]
  by_cases hs : slug = ""
  · simp [hs, exceptIsOk]
  · rw [if_neg hs]
    by_cases hl : goStrLen slug > 50
    · simp [hl, exceptIsOk, not_le.mpr hl]
    · rw [if_neg hl]
      by_cases hm : slugRegexMatches slug = true
      · rw [if_neg (by simp [hm]), if_neg (not_not_intro htype), hopts]
        simp [exceptIsOk, hs, hm, not_lt.mp hl]
      · rw [if_pos (by simp [hm])]
        simp [exceptIsOk, hs, hm]

/-- Witness for C9: the valid slug `color` is accepted by NewAttribute. -/
theorem C9_witness :
    exceptIsOk (NewAttribute "g" "" "Test" "color" AttributeTypeSingle none
      false [] 0) = true :=
  (C9_attribute_slug_validation.1 "g" "" "Test" "color" AttributeTypeSingle none
    false [] 0 (by decide) (by decide) (Or.inl rfl) (by rfl)).mpr
    ⟨by decide, by decide, by rfl⟩

theorem asciiCharBytes_sum :
    ∀ l : List Char, (∀ c ∈ l, c.toNat ≤ 127) → (l.map goCharBytes).sum = l.length := by
  intro l h
  induction l with
  | nil => rfl
  | cons c t ih =>
    have hc : goCharBytes c = 1 := by
      unfold goCharBytes
      rw [if_pos (h c (List.mem_cons_self c t))]
    simp only [List.map_cons, List.sum_cons, List.length_cons, hc]
    rw [ih (fun x hx => h x (List.mem_cons_of_mem c hx))]
    omega

/-- C10: the name-length limits are enforced on UTF-8 byte length (Go `len`),
not character count — a 60-character name of 2-byte runes is rejected by
NewAttribute as too long (likewise a 130-character one by the Category and
Product validators), while for ASCII-only names the byte length equals the
character count and a name of at most 100 characters is never rejected as too
long. -/
theorem C10_name_limits_use_byte_length :
    multiByteName100.length = 60 ∧
    NewAttribute "g" "" multiByteName100 "color" AttributeTypeSingle none false [] 0
      = .error .nameTooLong ∧
    multiByteName255.length = 130 ∧
    validateCategoryData multiByteName255 = some .nameTooLong ∧
    validateProductData multiByteName255 1 1 = some .nameTooLong ∧
    (∀ (name slug : String) (attrType : AttributeType),
       (∀ c ∈ name.data, c.toNat ≤ 127) → name.length ≤ 100 →
       goStrLen name = name.length ∧
       validateAttributeData name slug attrType ≠ some .nameTooLong) := by
  refine ⟨by decide, by rfl, by decide, by rfl, by rfl, ?_⟩
  intro name slug attrType hascii hlen
  have hgo : goStrLen name = name.length := by
    unfold goStrLen
    rw [asciiCharBytes_sum name.data hascii]
    rfl
  refine ⟨hgo, ?_⟩
  unfold validateAttributeData
  split_ifs with h1 h2 h3 h4 h5 h6
  · simp
  · rw [hgo] at h2; omega
  · simp
  · simp
  · simp
  · simp
  · simp

/-- Witness for C10: the ASCII name `abc` has byte length equal to character
count and is never rejected as too long. -/
theorem C10_witness :
    goStrLen "abc" = "abc".length ∧
    validateAttributeData "abc" "color" AttributeTypeSingle ≠
      some AttributeError.nameTooLong :=
  C10_name_limits_use_byte_length.2.2.2.2.2 "abc" "color" AttributeTypeSingle
    (by decide) (by decide)

theorem updateProductHandle_version_mismatch (p : Product) (cmdVersion : Int)
    (name : String) (description : Option String) (price : Rat) (quantity : Int)
    (imageID categoryID : Option String) (enabled : Bool)
    (attributes : List AttributeValue) (now : Nat) (h : p.version ≠ cmdVersion) :
    updateProductHandle (some p) cmdVersion name description price quantity
      imageID categoryID enabled attributes now =
      { result := .error .optimisticLocking, store := some p, txOpened := false } := by
  unfold updateProductHandle
  dsimp only
  rw [if_pos h]

theorem updateAttributeHandle_version_mismatch (a : Attribute) (cmdVersion : Int)
    (name : String) (unit : Option String) (enabled : Bool)
    (options : List AttrOption) (now : Nat) (h : a.version ≠ cmdVersion) :
    updateAttributeHandle (some a) cmdVersion name unit enabled options now =
      { result := .error .optimisticLocking, store := some a, txOpened := false } := by
  unfold updateAttributeHandle
  dsimp only
  rw [if_pos h]

/-- C2: the update handlers load the stored aggregate and fail fast with the
optimistic-locking conflict — before opening any transaction — whenever the
stored version differs from the command's expected version; consequently,
starting from a stored product at Version 1, an update expecting Version 1
succeeds and persists Version 2, and a second update still expecting
Version 1 fails with the conflict error, leaves the store at Version 2 and
opens no transaction. -/
theorem C2_update_version_conflict :
    (∀ (p : Product) (cmdVersion : Int) (name : String)
       (description : Option String) (price : Rat) (quantity : Int)
       (imageID categoryID : Option String) (enabled : Bool)
       (attributes : List AttributeValue) (now : Nat),
       p.version ≠ cmdVersion →
       updateProductHandle (some p) cmdVersion name description price quantity
         imageID categoryID enabled attributes now =
         { result := .error .optimisticLocking, store := some p
           txOpened := false }) ∧
    (∀ (a : Attribute) (cmdVersion : Int) (name : String) (unit : Option String)
       (enabled : Bool) (options : List AttrOption) (now : Nat),
       a.version ≠ cmdVersion →
       updateAttributeHandle (some a) cmdVersion name unit enabled options now =
         { result := .error .optimisticLocking, store := some a
           txOpened := false }) ∧
    (∀ (p p₁ : Product) (name : String) (description : Option String)
       (price : Rat) (quantity : Int) (imageID categoryID : Option String)
       (enabled : Bool) (attributes : List AttributeValue) (now now' : Nat),
       p.version = 1 →
       Product.Update p name description price quantity imageID categoryID
         enabled attributes now = (p₁, none) →
       updateProductHandle (some p) 1 name description price quantity imageID
         categoryID enabled attributes now =
         { result := .ok { p₁ with version := 2 }
           store := some { p₁ with version := 2 }, txOpened := true } ∧
       updateProductHandle (some { p₁ with version := 2 }) 1 name description
         price quantity imageID categoryID enabled attributes now' =
         { result := .error .optimisticLocking
           store := some { p₁ with version := 2 }, txOpened := false }) := by
  refine ⟨?_, ?_, ?_⟩
  · intro p cmdVersion name description price quantity imageID categoryID enabled
      attributes now h
    exact updateProductHandle_version_mismatch p cmdVersion name description
      price quantity imageID categoryID enabled attributes now h
  · intro a cmdVersion name unit enabled options now h
    exact updateAttributeHandle_version_mismatch a cmdVersion name unit enabled
      options now h
  · intro p p₁ name description price quantity imageID categoryID enabled
      attributes now now' hv hupd
    have hv1 : p₁.version = 1 := by
      obtain ⟨-, -, hq⟩ := Product.Update_ok hupd
      rw [hq]
      exact hv
    constructor
    · unfold updateProductHandle
      dsimp only
      rw [if_neg (by rw [hv]; exact not_not_intro rfl), hupd]
      dsimp only
      unfold repoUpdateProduct
      dsimp only
      rw [if_pos (by rw [hv, hv1]), hv1]
      rfl
    · apply updateProductHandle_version_mismatch
      simp

/-- Witness for C2: the concrete stored product at Version 1 is updated once
to Version 2, and the replayed stale command conflicts without a transaction. -/
theorem C2_witness :
    updateProductHandle (some prodC2) 1 "New" none 4 6 none none false [] 7 =
      { result := .ok { prodC2' with version := 2 }
        store := some { prodC2' with version := 2 }, txOpened := true } ∧
    updateProductHandle (some { prodC2' with version := 2 }) 1 "New" none 4 6
      none none false [] 8 =
      { result := .error .optimisticLocking
        store := some { prodC2' with version := 2 }, txOpened := false } :=
  C2_update_version_conflict.2.2 prodC2 prodC2' "New" none 4 6 none none false
    [] 7 8 (by rfl) (by rfl)

theorem findAttrByIDsOrFail_missing (store : List Attribute) (ids : List String)
    (hnd : (store.map Attribute.id).Nodup) (m : String) (hm : m ∈ ids)
    (hmiss : m ∉ store.map Attribute.id) :
    ∃ m', findAttrByIDsOrFail store ids = .error (.attributeNotFound m') ∧
      m' ∈ ids ∧ m' ∉ store.map Attribute.id := by
  classical
  have hsub : ((findAttrByIDs store ids).map Attribute.id).Sublist
      (store.map Attribute.id) :=
    List.Sublist.map _ (List.filter_sublist store)
  have hnodup : ((findAttrByIDs store ids).map Attribute.id).Nodup := hsub.nodup hnd
  have hmemids : ∀ x ∈ (findAttrByIDs store ids).map Attribute.id, x ∈ ids := by
    intro x hx
    obtain ⟨a, ha, rfl⟩ := List.mem_map.mp hx
    have hfa := List.of_mem_filter ha
    simpa using hfa
  have hne : ∀ x ∈ (findAttrByIDs store ids).map Attribute.id, x ≠ m := by
    intro x hx hxm
    exact hmiss (hxm ▸ hsub.subset hx)
  have hsubset : ((findAttrByIDs store ids).map Attribute.id) ⊆ (ids.dedup.erase m) := by
    intro x hx
    exact (List.mem_erase_of_ne (hne x hx)).mpr (List.mem_dedup.mpr (hmemids x hx))
  have hlen1 : (findAttrByIDs store ids).length ≤ (ids.dedup.erase m).length := by
    have := (hnodup.subperm hsubset).length_le
    simpa [List.length_map] using this
  have hmd : m ∈ ids.dedup := List.mem_dedup.mpr hm
  have hlen2 : (ids.dedup.erase m).length = ids.dedup.length - 1 :=
    List.length_erase_of_mem hmd
  have hpos : 0 < ids.dedup.length := List.length_pos_of_mem hmd
  have hlen3 : ids.dedup.length ≤ ids.length := (List.dedup_sublist ids).length_le
  have hne_len : (findAttrByIDs store ids).length ≠ ids.length := by omega
  have hm_not_found : m ∉ (findAttrByIDs store ids).map Attribute.id := by
    intro hc
    exact hne m hc rfl
  have hfind : (ids.find? (fun i =>
      ¬ ((findAttrByIDs store ids).map Attribute.id).contains i)).isSome := by
    apply List.find?_isSome.mpr
    exact ⟨m, hm, by simpa using hm_not_found⟩
  obtain ⟨m', hm'⟩ := Option.isSome_iff_exists.mp hfind
  have hm'_mem : m' ∈ ids := List.mem_of_find?_eq_some hm'
  have hm'_not_found : m' ∉ (findAttrByIDs store ids).map Attribute.id := by
    have := List.find?_some hm'
    simpa using this
  have hm'_not_store : m' ∉ store.map Attribute.id := by
    intro hms
    obtain ⟨a, ha, haeq⟩ := List.mem_map.mp hms
    have hmem : a ∈ findAttrByIDs store ids := by
      unfold findAttrByIDs
      refine List.mem_filter.mpr ⟨ha, ?_⟩
      simp [haeq, hm'_mem]
    exact hm'_not_found (List.mem_map.mpr ⟨a, hmem, haeq⟩)
  refine ⟨m', ?_, hm'_mem, hm'_not_store⟩
  unfold findAttrByIDsOrFail
  rw [if_pos hne_len]
  dsimp only
  rw [hm']
  rfl

/-- C3: a CreateProduct command whose CategoryID names no existing category
fails with the distinct CategoryNotFound error; a CreateProduct or
CreateCategory command referencing a non-existent AttributeID fails with the
error naming a genuinely missing referenced ID; in every case no insert is
performed and no transaction is opened. -/
theorem C3_reference_resolution_failures :
    (∀ (catStore : List String) (attrStore : List Attribute)
       (cmdID : Option String) (genId name : String) (description : Option String)
       (price : Rat) (quantity : Int) (imageID : Option String) (cid : String)
       (enabled : Bool) (attributes : List AttributeValue) (now : Nat),
       catStore.contains cid = false →
       createProductHandle catStore attrStore cmdID genId name description price
         quantity imageID (some cid) enabled attributes now =
         { result := .error .categoryNotFound, inserted := false
           txOpened := false }) ∧
    (∀ (catStore : List String) (attrStore : List Attribute)
       (cmdID : Option String) (genId name : String) (description : Option String)
       (price : Rat) (quantity : Int) (imageID categoryID : Option String)
       (enabled : Bool) (attributes : List AttributeValue) (now : Nat) (m : String),
       createProductValidateCategory catStore categoryID = none →
       (attrStore.map Attribute.id).Nodup →
       m ∈ attributes.map AttributeValue.attributeID →
       m ∉ attrStore.map Attribute.id →
       ∃ m', createProductHandle catStore attrStore cmdID genId name description
           price quantity imageID categoryID enabled attributes now =
           { result := .error (.attributeNotFound m'), inserted := false
             txOpened := false } ∧
         m' ∈ attributes.map AttributeValue.attributeID ∧
         m' ∉ attrStore.map Attribute.id) ∧
    (∀ (attrStore : List Attribute) (cmdID : Option String) (genId name : String)
       (enabled : Bool) (inputs : List CategoryAttributeInput) (now : Nat)
       (m : String),
       (attrStore.map Attribute.id).Nodup →
       m ∈ inputs.map CategoryAttributeInput.attributeID →
       m ∉ attrStore.map Attribute.id →
       ∃ m', createCategoryHandle attrStore cmdID genId name enabled inputs now =
           { result := .error (.attributeNotFound m'), inserted := false
             txOpened := false } ∧
         m' ∈ inputs.map CategoryAttributeInput.attributeID ∧
         m' ∉ attrStore.map Attribute.id) := by
  refine ⟨?_, ?_, ?_⟩
  · intro catStore attrStore cmdID genId name description price quantity imageID
      cid enabled attributes now h
    unfold createProductHandle createProductValidateCategory
    dsimp only
    rw [if_neg (by simpa using h)]
  · intro catStore attrStore cmdID genId name description price quantity imageID
      categoryID enabled attributes now m hcat hnd hm hmiss
    obtain ⟨m', heq, hmem, hnot⟩ := findAttrByIDsOrFail_missing attrStore
      (attributes.map AttributeValue.attributeID) hnd m hm hmiss
    refine ⟨m', ?_, hmem, hnot⟩
    unfold createProductHandle
    rw [hcat]
    dsimp only
    rw [heq]
  · intro attrStore cmdID genId name enabled inputs now m hnd hm hmiss
    obtain ⟨m', heq, hmem, hnot⟩ := findAttrByIDsOrFail_missing attrStore
      (inputs.map CategoryAttributeInput.attributeID) hnd m hm hmiss
    refine ⟨m', ?_, hmem, hnot⟩
    unfold createCategoryHandle
    rw [heq]

/-- Witness for C3: concrete failing create commands — a missing category, a
missing product attribute, and a missing category attribute. -/
theorem C3_witness :
    (createProductHandle ["c1"] [] none "g" "X" none 10 5 none (some "missing")
      false [] 0 =
      { result := .error .categoryNotFound, inserted := false
        txOpened := false }) ∧
    (∃ m', createProductHandle [] attrStoreColor none "g" "X" none 10 5 none none
        false [{ attributeID := "a2", optionSlugValue := none
                 optionSlugValues := [], numericValue := none, textValue := none
                 booleanValue := none }] 0 =
        { result := .error (.attributeNotFound m'), inserted := false
          txOpened := false } ∧
      m' ∈ [{ attributeID := "a2", optionSlugValue := none
              optionSlugValues := [], numericValue := none, textValue := none
              booleanValue := none : AttributeValue }].map AttributeValue.attributeID ∧
      m' ∉ attrStoreColor.map Attribute.id) ∧
    (∃ m', createCategoryHandle [] none "g" "Electronics" true inputsColor 0 =
        { result := .error (.attributeNotFound m'), inserted := false
          txOpened := false } ∧
      m' ∈ inputsColor.map CategoryAttributeInput.attributeID ∧
      m' ∉ ([] : List Attribute).map Attribute.id) :=
  ⟨C3_reference_resolution_failures.1 ["c1"] [] none "g" "X" none 10 5 none
      "missing" false [] 0 (by decide),
   C3_reference_resolution_failures.2.1 [] attrStoreColor none "g" "X" none 10 5
      none none false _ 0 "a2" (by rfl) (by decide) (by decide) (by decide),
   C3_reference_resolution_failures.2.2 [] none "g" "Electronics" true
      inputsColor 0 "attr-1" (by decide) (by decide) (by decide)⟩

/-- C5 (code bug): the create-category handler stores the created category
with an empty `Slug` on its attribute — not the referenced attribute's slug
`color` — although the update handler's `buildCategoryAttributes` does
snapshot it (and the repository's own handler test asserts the snapshot on
create as well). -/
theorem C5_create_category_slug_not_snapshotted :
    (createCategoryHandle attrStoreColor none "c1" "Electronics" true
      inputsColor 0).result = .ok catC5 ∧
    catC5.attributes.map CategoryAttribute.slug = [""] ∧
    attrStoreColor.map Attribute.slug = ["color"] ∧
    buildCategoryAttributes attrStoreColor inputsColor =
      .ok [{ attributeID := "attr-1", slug := "color", role := "variant"
             required := true, sortOrder := 1, filterable := true
             searchable := true }] ∧
    ("" : String) ≠ "color" :=
  ⟨by rfl, by rfl, by rfl, by rfl, by decide⟩

theorem find?_of_nodup_map {α : Type} (f : α → String) :
    ∀ (l : List α) (a : α) (k : String), (l.map f).Nodup → a ∈ l → f a = k →
      l.find? (fun x => f x = k) = some a := by
  intro l
  induction l with
  | nil => intro a k _ ha _; cases ha
  | cons b t ih =>
    intro a k hnd ha hk
    rw [List.map_cons, List.nodup_cons] at hnd
    rcases List.mem_cons.mp ha with rfl | hat
    · exact List.find?_cons_of_pos _ (by simp [hk])
    · have hfb : f b ≠ k := by
        intro hbk
        exact hnd.1 (hbk ▸ hk ▸ List.mem_map_of_mem f hat)
      rw [List.find?_cons_of_neg _ (by simp [hfb])]
      exact ih a k hnd.2 hat hk

theorem keyByAttrID_eq_some (attrs : List Attribute) (a : Attribute) (k : String)
    (hnd : (attrs.map Attribute.id).Nodup) (ha : a ∈ attrs) (hk : a.id = k) :
    keyByAttrID attrs k = some a := by
  unfold keyByAttrID
  exact find?_of_nodup_map Attribute.id attrs.reverse a k
    (by rw [List.map_reverse]; exact List.nodup_reverse.mpr hnd)
    (List.mem_reverse.mpr ha) hk

theorem keyByCatAttrID_eq_some (c : Category) (ca : CategoryAttribute) (k : String)
    (hnd : (c.attributes.map CategoryAttribute.attributeID).Nodup)
    (ha : ca ∈ c.attributes) (hk : ca.attributeID = k) :
    keyByCatAttrID (some c) k = some ca := by
  unfold keyByCatAttrID
  exact find?_of_nodup_map CategoryAttribute.attributeID c.attributes.reverse ca k
    (by rw [List.map_reverse]; exact List.nodup_reverse.mpr hnd)
    (List.mem_reverse.mpr ha) hk

theorem toProductEventAttr_attr_fields (attrs : List Attribute)
    (cat : Option Category) (pa : AttributeValue) (a : Attribute)
    (hfind : keyByAttrID attrs pa.attributeID = some a) :
    (toProductEventAttr attrs cat pa).attributeSlug = a.slug ∧
    (toProductEventAttr attrs cat pa).attributeName = a.name ∧
    (toProductEventAttr attrs cat pa).attributeType = a.attrType ∧
    (toProductEventAttr attrs cat pa).attributeUnit = a.unit := by
  unfold toProductEventAttr
  rw [hfind]
  dsimp only
  cases hc : keyByCatAttrID cat pa.attributeID <;> dsimp only <;> repeat' split
  all_goals simp

theorem toProductEventAttr_cat_fields (attrs : List Attribute)
    (cat : Option Category) (pa : AttributeValue) (ca : CategoryAttribute)
    (hfind : keyByCatAttrID cat pa.attributeID = some ca) :
    (toProductEventAttr attrs cat pa).role = ca.role ∧
    (toProductEventAttr attrs cat pa).sortOrder = ca.sortOrder := by
  unfold toProductEventAttr
  rw [hfind]
  dsimp only
  simp

theorem toProductEventAttr_option_single (attrs : List Attribute)
    (cat : Option Category) (pa : AttributeValue) (a : Attribute) (opt : AttrOption)
    (hfind : keyByAttrID attrs pa.attributeID = some a)
    (hnd : (a.options.map AttrOption.slug).Nodup) (hopt : opt ∈ a.options)
    (hsv : pa.optionSlugValue = some opt.slug) :
    (toProductEventAttr attrs cat pa).optionName = some opt.name ∧
    (toProductEventAttr attrs cat pa).optionColorCode = opt.colorCode := by
  have hfo : a.options.find? (fun o => o.slug = opt.slug) = some opt :=
    find?_of_nodup_map AttrOption.slug a.options opt opt.slug hnd hopt rfl
  unfold toProductEventAttr
  rw [hfind, hsv]
  dsimp only
  rw [hfo]
  cases hc : keyByCatAttrID cat pa.attributeID <;> dsimp only <;>
    split_ifs <;> simp

theorem toProductEventAttr_option_multiple (attrs : List Attribute)
    (cat : Option Category) (pa : AttributeValue) (a : Attribute) (opt : AttrOption)
    (hfind : keyByAttrID attrs pa.attributeID = some a)
    (hnd : (a.options.map AttrOption.slug).Nodup) (hopt : opt ∈ a.options)
    (hsel : opt.slug ∈ pa.optionSlugValues) :
    ∃ l, (toProductEventAttr attrs cat pa).optionNames = some l ∧
      opt.name ∈ l := by
  have hko : keyByOptionSlug a.options opt.slug = some opt := by
    unfold keyByOptionSlug
    exact find?_of_nodup_map AttrOption.slug a.options.reverse opt opt.slug
      (by rw [List.map_reverse]; exact List.nodup_reverse.mpr hnd)
      (List.mem_reverse.mpr hopt) rfl
  have hmemnames : opt.name ∈ pa.optionSlugValues.filterMap
      (fun slug => (keyByOptionSlug a.options slug).map AttrOption.name) :=
    List.mem_filterMap.mpr ⟨opt.slug, hsel, by rw [hko]; rfl⟩
  have hlen1 : pa.optionSlugValues.length > 0 := List.length_pos_of_mem hsel
  have hlen2 : (pa.optionSlugValues.filterMap
      (fun slug => (keyByOptionSlug a.options slug).map AttrOption.name)).length > 0 :=
    List.length_pos_of_mem hmemnames
  refine ⟨_, ?_, hmemnames⟩
  unfold toProductEventAttr
  rw [hfind]
  dsimp only
  rw [if_pos hlen1, if_pos hlen2]
  cases hc : keyByCatAttrID cat pa.attributeID <;>
    cases hsv : pa.optionSlugValue <;> rfl

/-- C6 counterexample: the category-created event payload carries neither the
referenced attribute's name `Color` nor its type `single` anywhere among its
string fields — a consumer cannot read them off the event, although the claim
says category events denormalize the attribute's name, slug, type, unit and
options. -/
theorem C6_counterexample :
    attrColor.id = "attr-1" ∧ attrColor.name = "Color" ∧
    attrColor.attrType = "single" ∧
    catC6.attributes.map CategoryAttribute.attributeID = [attrColor.id] ∧
    "Color" ∉ categoryPayloadStrings (newCategoryCreatedPayload catC6) ∧
    "single" ∉ categoryPayloadStrings (newCategoryCreatedPayload catC6) := by
  refine ⟨rfl, rfl, rfl, rfl, ?_, ?_⟩ <;> decide

/-- C6 amended: for every Product event payload built by the Event Factory,
each referenced attribute's name, slug, type, unit, and options (the selected
option's name and colour code, and the names of multi-selected options) are
denormalized into the event, and the owning category's role and sort-order
for that attribute, with one entry per product attribute value; Category
event payloads, in contrast, copy only the stored category-attribute settings
(attribute ID, slug snapshot, role, required, sort-order, filterable,
searchable) and never the referenced attribute's name, type, unit or
options. -/
theorem C6_amended_event_denormalization :
    (∀ (attrs : List Attribute) (cat : Option Category) (pa : AttributeValue)
       (a : Attribute),
       (attrs.map Attribute.id).Nodup → a ∈ attrs → a.id = pa.attributeID →
       (toProductEventAttr attrs cat pa).attributeSlug = a.slug ∧
       (toProductEventAttr attrs cat pa).attributeName = a.name ∧
       (toProductEventAttr attrs cat pa).attributeType = a.attrType ∧
       (toProductEventAttr attrs cat pa).attributeUnit = a.unit) ∧
    (∀ (attrs : List Attribute) (cat : Option Category) (pa : AttributeValue)
       (a : Attribute) (opt : AttrOption),
       (attrs.map Attribute.id).Nodup → a ∈ attrs → a.id = pa.attributeID →
       (a.options.map AttrOption.slug).Nodup → opt ∈ a.options →
       pa.optionSlugValue = some opt.slug →
       (toProductEventAttr attrs cat pa).optionName = some opt.name ∧
       (toProductEventAttr attrs cat pa).optionColorCode = opt.colorCode) ∧
    (∀ (attrs : List Attribute) (cat : Option Category) (pa : AttributeValue)
       (a : Attribute) (opt : AttrOption),
       (attrs.map Attribute.id).Nodup → a ∈ attrs → a.id = pa.attributeID →
       (a.options.map AttrOption.slug).Nodup → opt ∈ a.options →
       opt.slug ∈ pa.optionSlugValues →
       ∃ l, (toProductEventAttr attrs cat pa).optionNames = some l ∧
         opt.name ∈ l) ∧
    (∀ (attrs : List Attribute) (c : Category) (pa : AttributeValue)
       (ca : CategoryAttribute),
       (c.attributes.map CategoryAttribute.attributeID).Nodup →
       ca ∈ c.attributes → ca.attributeID = pa.attributeID →
       (toProductEventAttr attrs (some c) pa).role = ca.role ∧
       (toProductEventAttr attrs (some c) pa).sortOrder = ca.sortOrder) ∧
    (∀ (productAttrs : List AttributeValue) (attrs : List Attribute)
       (cat : Option Category),
       productAttrs ≠ [] →
       toProductEventAttributes productAttrs attrs cat =
         some (productAttrs.map (toProductEventAttr attrs cat))) ∧
    (∀ catAttrs : List CategoryAttribute,
       (toCategoryEventAttributesV2 catAttrs).map
         (fun a => (a.attributeID, a.attributeSlug, a.role)) =
       catAttrs.map (fun ca => (ca.attributeID, ca.slug, ca.role)) ∧
       (toCategoryEventAttributes catAttrs).map
         (fun a => (a.attributeID, a.attributeSlug, a.role)) =
       catAttrs.map (fun ca => (ca.attributeID, "", ca.role))) := by
  refine ⟨?_, ?_, ?_, ?_, ?_, ?_⟩
  · intro attrs cat pa a hnd ha hk
    exact toProductEventAttr_attr_fields attrs cat pa a
      (keyByAttrID_eq_some attrs a pa.attributeID hnd ha hk)
  · intro attrs cat pa a opt hnd ha hk hond hom hsv
    exact toProductEventAttr_option_single attrs cat pa a opt
      (keyByAttrID_eq_some attrs a pa.attributeID hnd ha hk) hond hom hsv
  · intro attrs cat pa a opt hnd ha hk hond hom hsel
    exact toProductEventAttr_option_multiple attrs cat pa a opt
      (keyByAttrID_eq_some attrs a pa.attributeID hnd ha hk) hond hom hsel
  · intro attrs c pa ca hnd ha hk
    exact toProductEventAttr_cat_fields attrs (some c) pa ca
      (keyByCatAttrID_eq_some c ca pa.attributeID hnd ha hk)
  · intro productAttrs attrs cat h
    unfold toProductEventAttributes
    rw [if_neg (by simpa using h)]
  · intro catAttrs
    constructor
    · unfold toCategoryEventAttributesV2
      rw [List.map_map]
      rfl
    · unfold toCategoryEventAttributes
      rw [List.map_map]
      rfl

/-- Witness for C6 amended: the concrete product attribute values referencing
`attr-1` are enriched with the attribute's slug, name, type and unit, with
the selected `Red` option's name and colour code, with the multi-selected
`Blue` option's name, and with `catC6`'s role and sort order. -/
theorem C6_amended_witness :
    ((toProductEventAttr attrStoreColor (some catC6) paColor).attributeSlug =
       attrColor.slug ∧
     (toProductEventAttr attrStoreColor (some catC6) paColor).attributeName =
       attrColor.name ∧
     (toProductEventAttr attrStoreColor (some catC6) paColor).attributeType =
       attrColor.attrType ∧
     (toProductEventAttr attrStoreColor (some catC6) paColor).attributeUnit =
       attrColor.unit) ∧
    ((toProductEventAttr [attrColorOpts] none paSingleRed).optionName =
       some optRed.name ∧
     (toProductEventAttr [attrColorOpts] none paSingleRed).optionColorCode =
       optRed.colorCode) ∧
    (∃ l, (toProductEventAttr [attrColorOpts] none paMultiRedBlue).optionNames =
       some l ∧ optBlue.name ∈ l) ∧
    ((toProductEventAttr attrStoreColor (some catC6) paColor).role =
       "variant" ∧
     (toProductEventAttr attrStoreColor (some catC6) paColor).sortOrder = 1) :=
  ⟨C6_amended_event_denormalization.1 attrStoreColor (some catC6) paColor
      attrColor (by decide) (by decide) (by decide),
   C6_amended_event_denormalization.2.1 [attrColorOpts] none paSingleRed
      attrColorOpts optRed (by decide) (by decide) (by decide) (by decide)
      (by decide) (by decide),
   C6_amended_event_denormalization.2.2.1 [attrColorOpts] none paMultiRedBlue
      attrColorOpts optBlue (by decide) (by decide) (by decide) (by decide)
      (by decide) (by decide),
   C6_amended_event_denormalization.2.2.2.1 attrStoreColor catC6 paColor
      { attributeID := "attr-1", slug := "color", role := "variant"
        required := true, sortOrder := 1, filterable := true, searchable := true }
      (by decide) (by decide) (by decide)⟩
